import Mathlib

/-!
Verification of the DRAGON analyzer core: a shallow embedding of the
VME buffer decoding (Vme.hxx, Adc.cxx), the validity-sentinel utilities
(Functions.hxx), the coincidence queue interface used by Unpack.cxx,
and the Unpacker orchestrator, together with theorems settling the
specified properties.
-/

namespace vme

/-- Embeds `vme::NONE` from Vme.hxx: the "empty" code used when no data is
present in a channel (default build, `VME_NO_DATA` not defined). -/
def NONE : Int := -1

end vme

/-- Embeds the single-argument `is_valid` from Vme.hxx:
`t != vme::NONE`. -/
def is_valid (t : Int) : Bool := t != vme.NONE

/-- Embeds the two-argument `is_valid` overload from Vme.hxx. -/
def is_valid2 (t1 t2 : Int) : Bool :=
  t1 != vme.NONE && t2 != vme.NONE

/-- Embeds the three-argument `is_valid` overload from Vme.hxx. -/
def is_valid3 (t1 t2 t3 : Int) : Bool :=
  t1 != vme.NONE && t2 != vme.NONE && t3 != vme.NONE

/-- Embeds the four-argument `is_valid` overload from Vme.hxx. -/
def is_valid4 (t1 t2 t3 t4 : Int) : Bool :=
  t1 != vme.NONE && t2 != vme.NONE && t3 != vme.NONE && t4 != vme.NONE

/-- Embeds the five-argument `is_valid` overload from Vme.hxx. -/
def is_valid5 (t1 t2 t3 t4 t5 : Int) : Bool :=
  t1 != vme.NONE && t2 != vme.NONE && t3 != vme.NONE && t4 != vme.NONE &&
  t5 != vme.NONE

/-- Embeds the six-argument `is_valid` overload from Vme.hxx. -/
def is_valid6 (t1 t2 t3 t4 t5 t6 : Int) : Bool :=
  t1 != vme.NONE && t2 != vme.NONE && t3 != vme.NONE && t4 != vme.NONE &&
  t5 != vme.NONE && t6 != vme.NONE

/-- Embeds the seven-argument `is_valid` overload from Vme.hxx. -/
def is_valid7 (t1 t2 t3 t4 t5 t6 t7 : Int) : Bool :=
  t1 != vme.NONE && t2 != vme.NONE && t3 != vme.NONE && t4 != vme.NONE &&
  t5 != vme.NONE && t6 != vme.NONE && t7 != vme.NONE

/-- Embeds the eight-argument `is_valid` overload from Vme.hxx. -/
def is_valid8 (t1 t2 t3 t4 t5 t6 t7 t8 : Int) : Bool :=
  t1 != vme.NONE && t2 != vme.NONE && t3 != vme.NONE && t4 != vme.NONE &&
  t5 != vme.NONE && t6 != vme.NONE && t7 != vme.NONE && t8 != vme.NONE

/-- Embeds the nine-argument `is_valid` overload from Vme.hxx. -/
def is_valid9 (t1 t2 t3 t4 t5 t6 t7 t8 t9 : Int) : Bool :=
  t1 != vme.NONE && t2 != vme.NONE && t3 != vme.NONE && t4 != vme.NONE &&
  t5 != vme.NONE && t6 != vme.NONE && t7 != vme.NONE && t8 != vme.NONE &&
  t9 != vme.NONE

/-- Embeds the ten-argument `is_valid` overload from Vme.hxx. -/
def is_valid10 (t1 t2 t3 t4 t5 t6 t7 t8 t9 t10 : Int) : Bool :=
  t1 != vme.NONE && t2 != vme.NONE && t3 != vme.NONE && t4 != vme.NONE &&
  t5 != vme.NONE && t6 != vme.NONE && t7 != vme.NONE && t8 != vme.NONE &&
  t9 != vme.NONE && t10 != vme.NONE

/-- Embeds the array-form `is_valid(T* tArray, int len)` from Vme.hxx:
scan the array, returning false at the first element equal to
`vme::NONE`, true if none is. The array is modelled as the list of its
`len` elements. -/
def is_valid_array : List Int → Bool
  | [] => true
  | t :: ts => if t == vme.NONE then false else is_valid_array ts

namespace dragon

/-- Modelled from the spec: `dragon::NO_DATA`, the "no data" marker for
derived double-valued quantities, lives in utils/Valid.hxx which is not
among the provided sources. Spec section 3 fixes its default to −1, and
the usage examples in Functions.hxx state `dragon::NO_DATA == -1`. -/
def NO_DATA : Int := -1

end dragon

namespace utils

/-- Embeds `utils::calculate_tof` from Functions.hxx: returns `t1 - t2`
if both parameters are valid, otherwise `dragon::NO_DATA`. Numeric
values are modelled as integers. -/
def calculate_tof (t1 t2 : Int) : Int :=
  if is_valid t1 && is_valid t2 then t1 - t2 else dragon.NO_DATA

/-- Embeds `utils::calculate_sum` from Functions.hxx: sums all values in
the range, skipping values that are not valid (equal to the sentinel).
The iterator range `[begin, end)` is modelled as the list of its
elements. -/
def calculate_sum (l : List Int) : Int :=
  l.foldl (fun sum x => if is_valid x then sum + x else sum) 0

end utils

namespace vme.caen

/-- Modelled from the spec: the bit masks `READ1` .. `READ24` come from
utils/Bits.hxx, which is not among the provided sources; spec section
4.2 fixes every field width (3-bit tag at bits 24-26, 5-bit channel at
bits 16-20, 12-bit value at bits 0-11, 1-bit flags at bits 12/13,
8-bit count at bits 6-13, 24-bit counter at bits 0-23), so `READn` is
the mask keeping the low `n` bits. -/
def READ1 : Nat := 0x1

/-- Modelled from the spec: 3-bit mask, see `READ1`. -/
def READ3 : Nat := 0x7

/-- Modelled from the spec: 5-bit mask, see `READ1`. -/
def READ5 : Nat := 0x1f

/-- Modelled from the spec: 8-bit mask, see `READ1`. -/
def READ8 : Nat := 0xff

/-- Modelled from the spec: 12-bit mask, see `READ1`. -/
def READ12 : Nat := 0xfff

/-- Modelled from the spec: 24-bit mask, see `READ1`. -/
def READ24 : Nat := 0xffffff

/-- Buffer-type codes from the anonymous namespace of Adc.cxx. -/
def DATA_BITS : Nat := 0x0

/-- See `DATA_BITS`. -/
def HEADER_BITS : Nat := 0x2

/-- See `DATA_BITS`. -/
def FOOTER_BITS : Nat := 0x4

/-- See `DATA_BITS`. -/
def INVALID_BITS : Nat := 0x6

/-- Embeds `vme::caen::Adc<32>`: a 32-entry data array (int16_t values,
modelled as a list of 32 integers) plus the scalar fields written by
the decoder. -/
structure Adc where
  data : List Int
  underflow : Nat
  overflow : Nat
  n_present : Nat
  count : Nat
deriving DecidableEq

/-- The freshly reset module: `vme::reset` fills `data` with
`vme::NONE`. Scalar fields start at zero. -/
def Adc.reset : Adc :=
  { data := List.replicate 32 vme.NONE
    underflow := 0, overflow := 0, n_present := 0, count := 0 }

/-- The decode faults of the error-handling taxonomy that surface as
C++ exceptions in Adc.cxx. -/
inductive AdcError where
  | OutOfRange
deriving DecidableEq

/-- Embeds `vme::caen::unpack_adc_data`: extract the channel id from
bits 16-20; if `32 < ch`, throw (`OutOfRange`, record untouched);
otherwise store the underflow flag (bit 13), overflow flag (bit 12)
and 12-bit value (bits 0-11) at channel `ch`. A 32-bit word is a
natural number (callers mask it to 32 bits upstream). -/
def unpack_adc_data (w : Nat) (m : Adc) : Except AdcError Adc :=
  let ch := (w >>> 16) &&& READ5
  if 32 < ch then
    .error .OutOfRange
  else
    .ok { m with
          underflow := (w >>> 13) &&& READ1
          overflow := (w >>> 12) &&& READ1
          data := m.data.set ch (((w >>> 0) &&& READ12 : Nat) : Int) }

/-- Embeds `vme::caen::unpack_adc_header`: store the 8-bit
channels-present count from bits 6-13. -/
def unpack_adc_header (w : Nat) (m : Adc) : Adc :=
  { m with n_present := (w >>> 6) &&& READ8 }

/-- Embeds `vme::caen::unpack_adc_footer`: store the 24-bit trailing
event counter from bits 0-23. -/
def unpack_adc_footer (w : Nat) (m : Adc) : Adc :=
  { m with count := (w >>> 0) &&& READ24 }

/-- Embeds `vme::caen::handle_adc_invalid`: reports an error message
only; the record is not mutated. -/
def handle_adc_invalid (_w : Nat) (m : Adc) : Adc := m

/-- The 3-bit buffer-type tag of a word: bits 24-26, as extracted in
`unpack_adc_buffer`. -/
def tagOf (w : Nat) : Nat := (w >>> 24) &&& READ3

/-- Embeds `unpack_adc_buffer` together with the `run_adc_unpacker`
dispatch map of Adc.cxx: look the tag up among the four registered
handlers (DATA, HEADER, FOOTER, INVALID); an unregistered tag returns
success = false with the record untouched; a handler that throws
(`unpack_adc_data` on a bad channel) is caught and also yields
success = false, the record untouched since the throw precedes any
mutation. -/
def unpack_adc_buffer (w : Nat) (m : Adc) : Bool × Adc :=
  let type := (w >>> 24) &&& READ3
  if type = DATA_BITS then
    match unpack_adc_data w m with
    | .ok m2 => (true, m2)
    | .error _ => (false, m)
  else if type = HEADER_BITS then (true, unpack_adc_header w m)
  else if type = FOOTER_BITS then (true, unpack_adc_footer w m)
  else if type = INVALID_BITS then (true, handle_adc_invalid w m)
  else (false, m)

/-- The loop body of `vme::caen::unpack_adc`: run `unpack_adc_buffer`
on the next word, clearing the running success flag when the word's
decode reports failure. -/
def unpack_adc_step (acc : Bool × Adc) (w : Nat) : Bool × Adc :=
  let r := unpack_adc_buffer w acc.2
  (acc.1 && r.1, r.2)

/-- The bank-scanning loop of `vme::caen::unpack_adc`: the bank payload
is the list of its 32-bit words (the pointer walk via `increment_void`
is modelled by consuming the list); `ret` starts true and is cleared by
any failing word, while the scan always continues to the end. -/
def unpack_adc_words (ws : List Nat) (m : Adc) : Bool × Adc :=
  ws.foldl unpack_adc_step (true, m)

/-- A MIDAS event at the bank-lookup boundary of spec section 6: a
named-bank lookup returning the bank payload or "not found". The event
is modelled as an association list from bank names to word lists. -/
def FindBank : List (String × List Nat) → String → Option (List Nat)
  | [], _ => none
  | (n, b) :: rest, name => if n == name then some b else FindBank rest name

/-- Embeds `vme::caen::unpack_adc`: look the named bank up in the
event; if absent return false immediately (record untouched);
otherwise scan every word of the bank, returning true iff every word
decoded successfully. -/
def unpack_adc (event : List (String × List Nat)) (bank : String) (m : Adc) :
    Bool × Adc :=
  match FindBank event bank with
  | none => (false, m)
  | some ws => unpack_adc_words ws m

/-- A word whose tag is one of the four codes registered in the
dispatch map of Adc.cxx. -/
def knownTag (w : Nat) : Bool :=
  tagOf w = DATA_BITS || tagOf w = HEADER_BITS ||
  tagOf w = FOOTER_BITS || tagOf w = INVALID_BITS

end vme.caen

namespace tstamp

/-- Modelled from the spec: the two detector subsystems of spec
section 1 ("head"/gamma and "tail"/heavy-ion); the tstamp queue
implementation (TStamp.hxx/.cxx) is not among the provided sources,
only its caller Unpack.cxx is, so the whole queue is modelled from
spec sections 3-5. -/
inductive Subsys where
  | head
  | tail
deriving DecidableEq

/-- Modelled from the spec: the other subsystem, used when searching
for a matching partner. -/
def Subsys.other : Subsys → Subsys
  | .head => .tail
  | .tail => .head

/-- Modelled from the spec: a PendingEvent of spec section 3 —
subsystem tag, timestamp, opaque payload, arrival order. -/
structure Pending where
  sub : Subsys
  ts : Nat
  payload : Nat
  order : Nat
deriving DecidableEq

/-- Modelled from the spec: a CoincidenceEvent of spec section 3 — the
head and tail components with their timestamps. -/
structure CoincEvent where
  head_ts : Nat
  head_payload : Nat
  tail_ts : Nat
  tail_payload : Nat
deriving DecidableEq

/-- Modelled from the spec: the Diagnostics counters of spec
section 3. -/
structure Diag where
  pushed_head : Nat
  pushed_tail : Nat
  n_matches : Nat
  singles : Nat
  out_of_order : Nat
deriving DecidableEq

/-- All-zero diagnostics, the state after `tstamp::Diagnostics::reset`. -/
def Diag.reset : Diag :=
  { pushed_head := 0, pushed_tail := 0, n_matches := 0, singles := 0
    out_of_order := 0 }

/-- Modelled from the spec: the CoincidenceQueue state — the matching
window, the pending events in arrival order, and the next arrival
ordinal. -/
structure Queue where
  window : Nat
  pending : List Pending
  nextOrder : Nat
deriving DecidableEq

/-- An empty queue with the given coincidence window. -/
def Queue.empty (window : Nat) : Queue :=
  { window := window, pending := [], nextOrder := 0 }

/-- Absolute distance between two timestamps. -/
def tsDist (a b : Nat) : Nat := max a b - min a b

/-- Modelled from the spec: keep the candidate closer in timestamp to
`ts`; on a tie keep the incumbent, which arrived earlier since the
pending list is scanned in arrival order (spec section 4.5 tie-break
policy). -/
def closerTo (ts : Nat) (best : Option Pending) (c : Pending) : Option Pending :=
  match best with
  | none => some c
  | some b => if tsDist c.ts ts < tsDist b.ts ts then some c else some b

/-- Modelled from the spec: the pending event of the list closest in
timestamp to `ts`, ties resolved toward earlier arrival. -/
def closest (ts : Nat) (l : List Pending) : Option Pending :=
  l.foldl (closerTo ts) none

/-- Modelled from the spec: assemble the CoincidenceEvent from the two
matched pending events, orienting by subsystem tag. -/
def mkCoinc (a b : Pending) : CoincEvent :=
  match a.sub with
  | .head => { head_ts := a.ts, head_payload := a.payload
               tail_ts := b.ts, tail_payload := b.payload }
  | .tail => { head_ts := b.ts, head_payload := b.payload
               tail_ts := a.ts, tail_payload := a.payload }

/-- Bump the per-subsystem pushed counter. -/
def Diag.bumpPushed (d : Diag) : Subsys → Diag
  | .head => { d with pushed_head := d.pushed_head + 1 }
  | .tail => { d with pushed_tail := d.pushed_tail + 1 }

/-- Modelled from the spec: `push` of spec section 4.5. Count the push;
log an out-of-order arrival when the new timestamp precedes the oldest
pending event of its own subsystem; then search the other subsystem's
pending events for the closest timestamp. Within the window: remove
the partner, emit the CoincidenceEvent, count the match (the new event
never enters pending storage). Otherwise the new event is appended as
Pushed. -/
def Queue.push (q : Queue) (sub : Subsys) (ts payload : Nat) (d : Diag) :
    Queue × Option CoincEvent × Diag :=
  let d1 := d.bumpPushed sub
  let own := q.pending.filter (fun p => p.sub == sub)
  let d2 := match own.head? with
    | some oldest => if ts < oldest.ts then
        { d1 with out_of_order := d1.out_of_order + 1 } else d1
    | none => d1
  let ev : Pending := { sub := sub, ts := ts, payload := payload
                        order := q.nextOrder }
  let others := q.pending.filter (fun p => p.sub == sub.other)
  match closest ts others with
  | some c =>
    if tsDist c.ts ts ≤ q.window then
      ({ q with pending := q.pending.filter (fun p => p.order != c.order)
                nextOrder := q.nextOrder + 1 },
       some (mkCoinc ev c),
       { d2 with n_matches := d2.n_matches + 1 })
    else
      ({ q with pending := q.pending ++ [ev], nextOrder := q.nextOrder + 1 },
       none, d2)
  | none =>
    ({ q with pending := q.pending ++ [ev], nextOrder := q.nextOrder + 1 },
     none, d2)

/-- Modelled from the spec: `flush(flush_time)` of spec section 4.5 —
evict every pending event older than the flush time as an unmatched
single, counting each eviction. -/
def Queue.flush (q : Queue) (flushTime : Nat) (d : Diag) : Queue × Diag :=
  let evicted := q.pending.filter (fun p => p.ts < flushTime)
  ({ q with pending := q.pending.filter (fun p => !(p.ts < flushTime)) },
   { d with singles := d.singles + evicted.length })

/-- Modelled from the spec: `flush_iterative` of spec sections 4.5
and 5 — evict exactly the single oldest pending event as an unmatched
single and return the resulting queue depth; on an empty queue do
nothing and return depth 0. -/
def Queue.flushIterative (q : Queue) (d : Diag) : Queue × Nat × Diag :=
  match q.pending with
  | [] => (q, 0, d)
  | _ :: rest =>
    ({ q with pending := rest }, rest.length,
     { d with singles := d.singles + 1 })

/-- Repeated `flush_iterative` calls: the end-of-run drain loop of spec
section 5. -/
def Queue.flushRepeat : Nat → Queue → Diag → Queue × Diag
  | 0, q, d => (q, d)
  | n + 1, q, d =>
    let r := q.flushIterative d
    Queue.flushRepeat n r.1 r.2.2

end tstamp

namespace dragon

/-- Modelled from the spec: the event-type tags of the MIDAS event
header (utils/definitions.h is not among the provided sources). Their
concrete values are immaterial; they are pairwise distinct routing
codes matched against `fEventId` in `UnpackMidasEvent`. -/
def DRAGON_HEAD_EVENT : Int := 1

/-- See `DRAGON_HEAD_EVENT`. -/
def DRAGON_TAIL_EVENT : Int := 2

/-- See `DRAGON_HEAD_EVENT`. -/
def DRAGON_COINC_EVENT : Int := 3

/-- See `DRAGON_HEAD_EVENT`. -/
def DRAGON_HEAD_SCALER : Int := 17

/-- See `DRAGON_HEAD_EVENT`. -/
def DRAGON_TAIL_SCALER : Int := 18

/-- See `DRAGON_HEAD_EVENT`. -/
def MIDAS_BOR : Int := 32768

/-- See `DRAGON_HEAD_EVENT`. -/
def MIDAS_EOR : Int := 32769

/-- See `DRAGON_HEAD_EVENT`. -/
def DRAGON_RUN_PARAMETERS : Int := 100

/-- Embeds the state of `dragon::Unpacker` (Unpack.cxx) relevant to
queue ownership and routing: the coincidence window, the owned queue
pointer (`auto_ptr`, null modelled as `none`), the diagnostics sink,
and the `fUnpacked` codes of the current event. The detector-pointer
members are assemblers whose internals other claims do not touch; an
assembled event is recorded by its code in `fUnpacked` exactly as the
source does. -/
structure Unpacker where
  fCoincWindow : Nat
  fQueue : Option tstamp.Queue
  fDiag : tstamp.Diag
  fUnpacked : List Int
deriving DecidableEq

/-- Modelled from the spec: `kCoincWindowDefault` is declared in
Unpack.hxx, not among the provided sources; spec section 4.5 calls it
a configurable microsecond-scale tolerance. Its value is immaterial to
the claims. -/
def kCoincWindowDefault : Nat := 10

/-- Embeds the `dragon::Unpacker` constructor: the queue pointer is
initialized null (`fQueue(0)`) and a queue is allocated only when
`singlesMode` is false. -/
def Unpacker.create (singlesMode : Bool) : Unpacker :=
  { fCoincWindow := kCoincWindowDefault
    fQueue := if singlesMode then none
              else some (tstamp.Queue.empty kCoincWindowDefault)
    fDiag := tstamp.Diag.reset
    fUnpacked := [] }

/-- Embeds `IsSinglesMode` as used by `UnpackMidasEvent` (declared in
Unpack.hxx, not among the provided sources): per spec section 4.6 the
mode is fixed at construction — singles mode is exactly the absence of
the queue. -/
def Unpacker.IsSinglesMode (u : Unpacker) : Bool := u.fQueue.isNone

/-- Embeds `dragon::Unpacker::FlushQueue`: `fQueue->Flush(flushTime,
fDiag)` dereferences the queue pointer with no null guard; on a null
pointer (singles mode) the dereference is undefined behaviour,
modelled as `none`. -/
def Unpacker.FlushQueue (u : Unpacker) (flushTime : Nat) : Option Unpacker :=
  match u.fQueue with
  | none => none
  | some q =>
    let r := q.flush flushTime u.fDiag
    some { u with fQueue := some r.1, fDiag := r.2 }

/-- Embeds `dragon::Unpacker::FlushQueueIterative`:
`fQueue->FlushIterative(fDiag)` dereferences the queue pointer with no
null guard; on a null pointer the dereference is undefined behaviour,
modelled as `none`. Returns the queue depth after removing the front
event. -/
def Unpacker.FlushQueueIterative (u : Unpacker) : Option (Unpacker × Nat) :=
  match u.fQueue with
  | none => none
  | some q =>
    let r := q.flushIterative u.fDiag
    some ({ u with fQueue := some r.1, fDiag := r.2.2 }, r.2.1)

/-- Embeds `dragon::Unpacker::UnpackMidasEvent` at the routing level:
clear `fUnpacked`, then dispatch on the header's event id. Head and
tail events are assembled immediately in singles mode (recording their
code) and pushed into the queue otherwise (a match assembles the
coincidence, recording its code); scaler and begin/end-of-run events
are handled synchronously; an unrecognized id is a warning only. The
event timestamp and payload stand for the data words handed to the
queue. -/
def Unpacker.UnpackMidasEvent (u : Unpacker) (eventId : Int)
    (ts payload : Nat) : Unpacker :=
  let u0 := { u with fUnpacked := [] }
  if eventId = DRAGON_HEAD_EVENT then
    match u0.fQueue with
    | none => { u0 with fUnpacked := u0.fUnpacked ++ [DRAGON_HEAD_EVENT] }
    | some q =>
      let r := q.push .head ts payload u0.fDiag
      { u0 with fQueue := some r.1, fDiag := r.2.2
                fUnpacked := match r.2.1 with
                  | some _ => u0.fUnpacked ++ [DRAGON_COINC_EVENT]
                  | none => u0.fUnpacked }
  else if eventId = DRAGON_TAIL_EVENT then
    match u0.fQueue with
    | none => { u0 with fUnpacked := u0.fUnpacked ++ [DRAGON_TAIL_EVENT] }
    | some q =>
      let r := q.push .tail ts payload u0.fDiag
      { u0 with fQueue := some r.1, fDiag := r.2.2
                fUnpacked := match r.2.1 with
                  | some _ => u0.fUnpacked ++ [DRAGON_COINC_EVENT]
                  | none => u0.fUnpacked }
  else if eventId = DRAGON_HEAD_SCALER then
    { u0 with fUnpacked := u0.fUnpacked ++ [DRAGON_HEAD_SCALER] }
  else if eventId = DRAGON_TAIL_SCALER then
    { u0 with fUnpacked := u0.fUnpacked ++ [DRAGON_TAIL_SCALER] }
  else if eventId = MIDAS_BOR then
    { u0 with fUnpacked := u0.fUnpacked ++ [DRAGON_RUN_PARAMETERS] }
  else if eventId = MIDAS_EOR then
    { u0 with fUnpacked := u0.fUnpacked ++ [DRAGON_RUN_PARAMETERS] }
  else
    u0

end dragon

section ValidityTheorems

/-- Helper: the scanning loop of the array-form `is_valid` agrees with
`List.all` over the single-argument predicate. -/
theorem is_valid_array_eq_all (l : List Int) :
    is_valid_array l = l.all (fun t => is_valid t) := by
  induction l with
  | nil => rfl
  | cons t ts ih =>
    by_cases h : t = vme.NONE
    · simp [is_valid_array, is_valid, h]
    · simp [is_valid_array, is_valid, h, ih]

/-- C7: `is_valid(x)` is false exactly on the sentinel; every variadic
overload over 2-10 values is the conjunction of the single-argument
validities; the array form is true exactly when every element is
valid. -/
theorem c7_is_valid_contract (x t1 t2 t3 t4 t5 t6 t7 t8 t9 t10 : Int)
    (l : List Int) :
    (is_valid x = false ↔ x = vme.NONE) ∧
    is_valid2 t1 t2 = (is_valid t1 && is_valid t2) ∧
    is_valid3 t1 t2 t3 = (is_valid t1 && is_valid t2 && is_valid t3) ∧
    is_valid4 t1 t2 t3 t4 =
      (is_valid t1 && is_valid t2 && is_valid t3 && is_valid t4) ∧
    is_valid5 t1 t2 t3 t4 t5 =
      (is_valid t1 && is_valid t2 && is_valid t3 && is_valid t4 &&
       is_valid t5) ∧
    is_valid6 t1 t2 t3 t4 t5 t6 =
      (is_valid t1 && is_valid t2 && is_valid t3 && is_valid t4 &&
       is_valid t5 && is_valid t6) ∧
    is_valid7 t1 t2 t3 t4 t5 t6 t7 =
      (is_valid t1 && is_valid t2 && is_valid t3 && is_valid t4 &&
       is_valid t5 && is_valid t6 && is_valid t7) ∧
    is_valid8 t1 t2 t3 t4 t5 t6 t7 t8 =
      (is_valid t1 && is_valid t2 && is_valid t3 && is_valid t4 &&
       is_valid t5 && is_valid t6 && is_valid t7 && is_valid t8) ∧
    is_valid9 t1 t2 t3 t4 t5 t6 t7 t8 t9 =
      (is_valid t1 && is_valid t2 && is_valid t3 && is_valid t4 &&
       is_valid t5 && is_valid t6 && is_valid t7 && is_valid t8 &&
       is_valid t9) ∧
    is_valid10 t1 t2 t3 t4 t5 t6 t7 t8 t9 t10 =
      (is_valid t1 && is_valid t2 && is_valid t3 && is_valid t4 &&
       is_valid t5 && is_valid t6 && is_valid t7 && is_valid t8 &&
       is_valid t9 && is_valid t10) ∧
    (is_valid_array l = true ↔ ∀ t ∈ l, is_valid t = true) := by
  refine ⟨?_, rfl, rfl, rfl, rfl, rfl, rfl, rfl, rfl, rfl, ?_⟩
  · simp [is_valid]
  · rw [is_valid_array_eq_all]
    simp

end ValidityTheorems

section FunctionsTheorems

/-- Helper: unrolling the summation loop of `calculate_sum` from an
arbitrary accumulator: the result adds the sum of the valid elements. -/
theorem calculate_sum_loop (l : List Int) (s : Int) :
    l.foldl (fun sum x => if is_valid x then sum + x else sum) s =
      s + (l.filter (fun x => is_valid x)).sum := by
  induction l generalizing s with
  | nil => simp
  | cons x xs ih =>
    by_cases h : is_valid x
    · simp only [List.foldl, List.filter, h, if_pos]
      rw [ih]
      simp [List.sum_cons]
      ring
    · simp only [List.foldl, List.filter, h, if_neg]
      simp only [Bool.false_eq_true, ite_false]
      rw [ih]

/-- C6 counterexample: the source's own documented example — an array
containing the `NONE` sentinel whose `calculate_sum` is the arithmetic
sum 601 of the valid entries, not the no-data marker; so a sum over an
array containing `NONE` does not short-circuit to the no-data
marker. -/
theorem c6_counterexample :
    (-1 : Int) = vme.NONE ∧
    utils.calculate_sum [300, 200, 100, 1, 0, -1] = 601 ∧
    (601 : Int) ≠ dragon.NO_DATA := by
  refine ⟨rfl, by decide, by decide⟩

/-- C6 amended: `calculate_tof` does return the no-data marker when
either argument is the sentinel, but `calculate_sum` skips sentinel
entries and returns the sum of the valid entries instead of
short-circuiting. -/
theorem c6_amended (t1 t2 : Int) (l : List Int)
    (h : t1 = vme.NONE ∨ t2 = vme.NONE) :
    utils.calculate_tof t1 t2 = dragon.NO_DATA ∧
    utils.calculate_sum l = (l.filter (fun x => is_valid x)).sum := by
  constructor
  · unfold utils.calculate_tof
    rcases h with h | h <;> simp [is_valid, h]
  · unfold utils.calculate_sum
    rw [calculate_sum_loop]
    simp

/-- C6 amended witness: the amended claim evaluated at a sentinel time
and the documented sum example. -/
theorem c6_amended_witness :
    utils.calculate_tof (-1) 5 = dragon.NO_DATA ∧
    utils.calculate_sum [300, -1] =
      (([300, -1] : List Int).filter (fun x => is_valid x)).sum :=
  c6_amended (-1) 5 [300, -1] (Or.inl rfl)

end FunctionsTheorems

namespace vme.caen

/-- Helper: the channel id extracted by `unpack_adc_data` is a 5-bit
field, hence at most 31, so the `32 < ch` guard never fires and the
decode always succeeds with the writes of the source. -/
theorem unpack_adc_data_eq (w : Nat) (m : Adc) :
    unpack_adc_data w m =
      Except.ok { m with
                  underflow := (w >>> 13) &&& READ1
                  overflow := (w >>> 12) &&& READ1
                  data := m.data.set ((w >>> 16) &&& READ5)
                            (((w >>> 0) &&& READ12 : Nat) : Int) } := by
  have hch : (w >>> 16) &&& READ5 ≤ 31 := Nat.and_le_right
  unfold unpack_adc_data
  rw [if_neg]
  omega

/-- C10: the channel id is `(w >> 16)` masked to 5 bits, hence below
32; the `OutOfRange` branch of `unpack_adc_data` is unreachable and
the decode always returns the updated record without throwing. -/
theorem c10_out_of_range_unreachable (w : Nat) (m : Adc) :
    (w >>> 16) &&& READ5 < 32 ∧
    ¬ 32 < (w >>> 16) &&& READ5 ∧
    unpack_adc_data w m =
      Except.ok { m with
                  underflow := (w >>> 13) &&& READ1
                  overflow := (w >>> 12) &&& READ1
                  data := m.data.set ((w >>> 16) &&& READ5)
                            (((w >>> 0) &&& READ12 : Nat) : Int) } := by
  have hch : (w >>> 16) &&& READ5 ≤ 31 := Nat.and_le_right
  refine ⟨by omega, by omega, unpack_adc_data_eq w m⟩

/-- C3: on a 32-entry record, a DATA word whose extracted channel id
`c` is below the capacity 32 decodes to a record holding the word's
12-bit value at channel `c` and the 1-bit overflow and underflow
flags, every other channel and the remaining fields unchanged; a word
whose extracted channel id were at or above the capacity would fail
with `OutOfRange` without returning a record. -/
theorem c3_data_word_frame (w : Nat) (m : Adc) (hm : m.data.length = 32) :
    ((w >>> 16) &&& READ5 < 32 →
      ∃ m2, unpack_adc_data w m = Except.ok m2 ∧
        m2.data[((w >>> 16) &&& READ5)]? =
          some (((w >>> 0) &&& READ12 : Nat) : Int) ∧
        (∀ j : Nat, j ≠ (w >>> 16) &&& READ5 → m2.data[j]? = m.data[j]?) ∧
        m2.underflow = (w >>> 13) &&& READ1 ∧
        m2.overflow = (w >>> 12) &&& READ1 ∧
        m2.n_present = m.n_present ∧
        m2.count = m.count) ∧
    (32 ≤ (w >>> 16) &&& READ5 →
      unpack_adc_data w m = Except.error AdcError.OutOfRange) := by
  have hch : (w >>> 16) &&& READ5 ≤ 31 := Nat.and_le_right
  constructor
  · intro hlt
    refine ⟨_, unpack_adc_data_eq w m, ?_, ?_, rfl, rfl, rfl, rfl⟩
    · exact List.getElem?_set_eq_of_lt _ (by omega)
    · intro j hj
      exact List.getElem?_set_ne (fun heq => hj heq.symm)
  · intro hge
    omega

/-- C3 witness: the DATA word 0x00050123 (channel 5, value 0x123) on a
freshly reset record. -/
theorem c3_data_word_frame_witness :
    ((0x00050123 >>> 16) &&& READ5 < 32 →
      ∃ m2, unpack_adc_data 0x00050123 Adc.reset = Except.ok m2 ∧
        m2.data[((0x00050123 >>> 16) &&& READ5)]? =
          some (((0x00050123 >>> 0) &&& READ12 : Nat) : Int) ∧
        (∀ j : Nat, j ≠ (0x00050123 >>> 16) &&& READ5 →
          m2.data[j]? = Adc.reset.data[j]?) ∧
        m2.underflow = (0x00050123 >>> 13) &&& READ1 ∧
        m2.overflow = (0x00050123 >>> 12) &&& READ1 ∧
        m2.n_present = Adc.reset.n_present ∧
        m2.count = Adc.reset.count) ∧
    (32 ≤ (0x00050123 >>> 16) &&& READ5 →
      unpack_adc_data 0x00050123 Adc.reset =
        Except.error AdcError.OutOfRange) :=
  c3_data_word_frame 0x00050123 Adc.reset (by decide)

/-- Helper: the per-word success flag of `unpack_adc_buffer` is
exactly "the word's tag is one of the four registered codes"; in
particular the DATA handler never throws (`unpack_adc_data_eq`) and
the INVALID handler reports success. -/
theorem unpack_adc_buffer_fst (w : Nat) (m : Adc) :
    (unpack_adc_buffer w m).1 = knownTag w := by
  unfold unpack_adc_buffer knownTag tagOf
  rw [unpack_adc_data_eq]
  simp only []
  split_ifs <;> simp [*]

/-- Helper: unrolling the bank loop from an arbitrary running success
flag. -/
theorem unpack_adc_words_loop_fst (ws : List Nat) (b : Bool) (m : Adc) :
    (ws.foldl unpack_adc_step (b, m)).1 = (b && ws.all knownTag) := by
  induction ws generalizing b m with
  | nil => simp
  | cons w ws ih =>
    simp only [List.foldl, List.all_cons]
    rw [unpack_adc_step, ih, unpack_adc_buffer_fst, Bool.and_assoc]

/-- C4 counterexample: a bank consisting of a single word carrying the
INVALID tag (bits 24-26 = 0 1 1) is unpacked with overall success =
true, because the INVALID handler is registered in the dispatch map;
the claim requires such a bank to yield overall success = false. -/
theorem c4_counterexample :
    tagOf 0x06000000 = INVALID_BITS ∧
    (unpack_adc_words [0x06000000] Adc.reset).1 = true := by
  refine ⟨by decide, by decide⟩

/-- C4 amended: unpacking a bank returns overall success = true iff
every word's tag is one of the four registered codes DATA, HEADER,
FOOTER or INVALID; only an unknown tag makes the overall result false
(an INVALID word counts as recognized), and the scan still completes
over all remaining words. -/
theorem c4_amended (ws : List Nat) (m : Adc) :
    (unpack_adc_words ws m).1 = ws.all knownTag := by
  unfold unpack_adc_words
  rw [unpack_adc_words_loop_fst]
  simp

/-- C5 counterexample: an event without the requested bank and an
event whose bank holds one undecodable word (unknown tag 0x7) produce
the very same result `(false, record untouched)` — the caller cannot
tell "bank not found" from "decode failure". -/
theorem c5_counterexample :
    unpack_adc [] "VADC" Adc.reset = (false, Adc.reset) ∧
    unpack_adc [("VADC", [0x07000000])] "VADC" Adc.reset =
      (false, Adc.reset) ∧
    unpack_adc [] "VADC" Adc.reset =
      unpack_adc [("VADC", [0x07000000])] "VADC" Adc.reset := by
  refine ⟨by decide, by decide, by decide⟩

/-- C5 amended: when the named bank is absent `unpack_adc` returns the
plain boolean false with the record untouched — the same false a
present-but-undecodable bank produces — so the two outcomes are not
distinguishable from the return value. -/
theorem c5_amended (bank : String) (m : Adc) (ws : List Nat) :
    unpack_adc [] bank m = (false, m) ∧
    (unpack_adc [(bank, ws)] bank m).1 = ws.all knownTag := by
  constructor
  · rfl
  · unfold unpack_adc FindBank
    simp only [beq_self_eq_true, if_pos]
    rw [unpack_adc_words, unpack_adc_words_loop_fst]
    simp

end vme.caen

namespace vme.caen

/-- Helper: a word that is not a HEADER never changes `n_present`,
whatever the running success flag. -/
theorem step_n_present_of_not_header (acc : Bool × Adc) (w : Nat)
    (h : tagOf w ≠ HEADER_BITS) :
    (unpack_adc_step acc w).2.n_present = acc.2.n_present := by
  unfold unpack_adc_step unpack_adc_buffer
  rw [unpack_adc_data_eq]
  unfold tagOf at h
  simp only []
  split_ifs <;> simp_all [unpack_adc_footer, handle_adc_invalid]

/-- Helper: a HEADER word sets `n_present` to its 8-bit field. -/
theorem step_n_present_of_header (acc : Bool × Adc) (w : Nat)
    (h : tagOf w = HEADER_BITS) :
    (unpack_adc_step acc w).2.n_present = (w >>> 6) &&& READ8 := by
  unfold unpack_adc_step unpack_adc_buffer
  unfold tagOf at h
  simp only []
  split_ifs <;> simp_all [unpack_adc_header, HEADER_BITS, DATA_BITS]

/-- Helper: a word that is not a FOOTER never changes `count`. -/
theorem step_count_of_not_footer (acc : Bool × Adc) (w : Nat)
    (h : tagOf w ≠ FOOTER_BITS) :
    (unpack_adc_step acc w).2.count = acc.2.count := by
  unfold unpack_adc_step unpack_adc_buffer
  rw [unpack_adc_data_eq]
  unfold tagOf at h
  simp only []
  split_ifs <;> simp_all [unpack_adc_header, handle_adc_invalid]

/-- Helper: a FOOTER word sets `count` to its 24-bit field. -/
theorem step_count_of_footer (acc : Bool × Adc) (w : Nat)
    (h : tagOf w = FOOTER_BITS) :
    (unpack_adc_step acc w).2.count = (w >>> 0) &&& READ24 := by
  unfold unpack_adc_step unpack_adc_buffer
  unfold tagOf at h
  simp only []
  split_ifs <;>
    simp_all [unpack_adc_footer, FOOTER_BITS, DATA_BITS, HEADER_BITS]

/-- Helper: a bank slice containing no HEADER word leaves `n_present`
where it stood. -/
theorem loop_n_present_of_no_header (ws : List Nat) (acc : Bool × Adc)
    (h : ws.filter (fun w => tagOf w == HEADER_BITS) = []) :
    (ws.foldl unpack_adc_step acc).2.n_present = acc.2.n_present := by
  induction ws generalizing acc with
  | nil => rfl
  | cons w ws ih =>
    rw [List.filter_cons] at h
    by_cases hw : tagOf w == HEADER_BITS
    · simp [hw] at h
    · simp only [hw, if_neg, Bool.false_eq_true, ite_false] at h
      rw [List.foldl_cons, ih _ h, step_n_present_of_not_header]
      simpa using hw

/-- Helper: a bank slice whose unique HEADER word is `h` ends with
`n_present` holding the HEADER's 8-bit field. -/
theorem loop_n_present_of_one_header (ws : List Nat) (hw : Nat)
    (acc : Bool × Adc)
    (h : ws.filter (fun w => tagOf w == HEADER_BITS) = [hw]) :
    (ws.foldl unpack_adc_step acc).2.n_present = (hw >>> 6) &&& READ8 := by
  induction ws generalizing acc with
  | nil => simp at h
  | cons w ws ih =>
    rw [List.filter_cons] at h
    by_cases hcase : tagOf w == HEADER_BITS
    · simp only [hcase, if_pos, List.cons.injEq] at h
      obtain ⟨rfl, hrest⟩ := h
      rw [List.foldl_cons, loop_n_present_of_no_header _ _ hrest,
        step_n_present_of_header]
      simpa using hcase
    · simp only [hcase, Bool.false_eq_true, ite_false] at h
      rw [List.foldl_cons, ih _ h]

/-- Helper: a bank slice containing no FOOTER word leaves `count`
where it stood. -/
theorem loop_count_of_no_footer (ws : List Nat) (acc : Bool × Adc)
    (h : ws.filter (fun w => tagOf w == FOOTER_BITS) = []) :
    (ws.foldl unpack_adc_step acc).2.count = acc.2.count := by
  induction ws generalizing acc with
  | nil => rfl
  | cons w ws ih =>
    rw [List.filter_cons] at h
    by_cases hw : tagOf w == FOOTER_BITS
    · simp [hw] at h
    · simp only [hw, Bool.false_eq_true, ite_false] at h
      rw [List.foldl_cons, ih _ h, step_count_of_not_footer]
      simpa using hw

/-- Helper: a bank slice whose unique FOOTER word is `f` ends with
`count` holding the FOOTER's 24-bit field. -/
theorem loop_count_of_one_footer (ws : List Nat) (fw : Nat)
    (acc : Bool × Adc)
    (h : ws.filter (fun w => tagOf w == FOOTER_BITS) = [fw]) :
    (ws.foldl unpack_adc_step acc).2.count = (fw >>> 0) &&& READ24 := by
  induction ws generalizing acc with
  | nil => simp at h
  | cons w ws ih =>
    rw [List.filter_cons] at h
    by_cases hcase : tagOf w == FOOTER_BITS
    · simp only [hcase, if_pos, List.cons.injEq] at h
      obtain ⟨rfl, hrest⟩ := h
      rw [List.foldl_cons, loop_count_of_no_footer _ _ hrest,
        step_count_of_footer]
      simpa using hcase
    · simp only [hcase, Bool.false_eq_true, ite_false] at h
      rw [List.foldl_cons, ih _ h]

/-- C8: for a bank holding exactly one HEADER word `hw`, exactly one
FOOTER word `fw`, and otherwise only DATA words, decoding the bank
sets `n_present` to the HEADER's 8-bit channels-present field and
`count` to the FOOTER's 24-bit event counter, whatever the number and
placement of the interleaved DATA words. -/
theorem c8_header_footer_roundtrip (ws : List Nat) (hw fw : Nat) (m : Adc)
    (hh : ws.filter (fun w => tagOf w == HEADER_BITS) = [hw])
    (hf : ws.filter (fun w => tagOf w == FOOTER_BITS) = [fw])
    (_hd : ∀ w ∈ ws, w = hw ∨ w = fw ∨ tagOf w = DATA_BITS) :
    (unpack_adc_words ws m).2.n_present = (hw >>> 6) &&& READ8 ∧
    (unpack_adc_words ws m).2.count = (fw >>> 0) &&& READ24 := by
  unfold unpack_adc_words
  exact ⟨loop_n_present_of_one_header ws hw _ hh,
    loop_count_of_one_footer ws fw _ hf⟩

/-- C8 witness: the bank [DATA ch5, HEADER n_present=7, DATA ch3,
FOOTER count=42]: the HEADER and FOOTER fields land regardless of the
interleaved DATA words. -/
theorem c8_header_footer_roundtrip_witness :
    (unpack_adc_words [0x00050123, 0x020001C0, 0x00030456, 0x0400002A]
        Adc.reset).2.n_present = (0x020001C0 >>> 6) &&& READ8 ∧
    (unpack_adc_words [0x00050123, 0x020001C0, 0x00030456, 0x0400002A]
        Adc.reset).2.count = (0x0400002A >>> 0) &&& READ24 :=
  c8_header_footer_roundtrip
    [0x00050123, 0x020001C0, 0x00030456, 0x0400002A] 0x020001C0 0x0400002A
    Adc.reset (by decide) (by decide) (by decide)

end vme.caen

namespace tstamp

/-- Helper: pushing into an empty queue stores the event as the sole
pending one; nothing is emitted. -/
theorem push_empty (w : Nat) (sub : Subsys) (ts p : Nat) (d : Diag) :
    (Queue.empty w).push sub ts p d =
      ({ window := w, pending := [⟨sub, ts, p, 0⟩], nextOrder := 1 },
       none, d.bumpPushed sub) := rfl

/-- Helper: pushing a tail event within the window of the sole pending
head event matches the pair: the pending store empties, the
CoincidenceEvent is emitted and the match counter is bumped. -/
theorem push_tail_into_head (w T dl p1 p2 : Nat) (d : Diag) (h : dl ≤ w) :
    Queue.push ⟨w, [⟨.head, T, p1, 0⟩], 1⟩ .tail (T + dl) p2 d =
      (⟨w, [], 2⟩, some ⟨T, p1, T + dl, p2⟩,
       { d with pushed_tail := d.pushed_tail + 1
                n_matches := d.n_matches + 1 }) := by
  have hd : tsDist T (T + dl) = dl := by unfold tsDist; omega
  simp [Queue.push, closest, closerTo, mkCoinc, Diag.bumpPushed,
    Subsys.other, hd, h]

/-- Helper: the mirror image of `push_tail_into_head` — a head event
pushed into a queue holding only a tail event within the window. -/
theorem push_head_into_tail (w T dl p1 p2 : Nat) (d : Diag) (h : dl ≤ w) :
    Queue.push ⟨w, [⟨.tail, T + dl, p2, 0⟩], 1⟩ .head T p1 d =
      (⟨w, [], 2⟩, some ⟨T, p1, T + dl, p2⟩,
       { d with pushed_head := d.pushed_head + 1
                n_matches := d.n_matches + 1 }) := by
  have hd : tsDist (T + dl) T = dl := by unfold tsDist; omega
  simp [Queue.push, closest, closerTo, mkCoinc, Diag.bumpPushed,
    Subsys.other, hd, h]

/-- C1: a head event at `T` and a tail event at `T + dl` with
`dl ≤ window`, pushed into the queue in either order, emit nothing on
the first push and exactly one CoincidenceEvent pairing the two on the
second, leave zero residual pending events, and bump the match counter
once. -/
theorem c1_coincidence_window_match (w T dl p1 p2 : Nat) (d : Diag)
    (h : dl ≤ w) :
    (((Queue.empty w).push .head T p1 d).2.1 = none) ∧
    ((((Queue.empty w).push .head T p1 d).1.push .tail (T + dl) p2
        ((Queue.empty w).push .head T p1 d).2.2).2.1 =
      some ⟨T, p1, T + dl, p2⟩) ∧
    ((((Queue.empty w).push .head T p1 d).1.push .tail (T + dl) p2
        ((Queue.empty w).push .head T p1 d).2.2).1.pending = []) ∧
    ((((Queue.empty w).push .head T p1 d).1.push .tail (T + dl) p2
        ((Queue.empty w).push .head T p1 d).2.2).2.2.n_matches =
      d.n_matches + 1) ∧
    (((Queue.empty w).push .tail (T + dl) p2 d).2.1 = none) ∧
    ((((Queue.empty w).push .tail (T + dl) p2 d).1.push .head T p1
        ((Queue.empty w).push .tail (T + dl) p2 d).2.2).2.1 =
      some ⟨T, p1, T + dl, p2⟩) ∧
    ((((Queue.empty w).push .tail (T + dl) p2 d).1.push .head T p1
        ((Queue.empty w).push .tail (T + dl) p2 d).2.2).1.pending = []) ∧
    ((((Queue.empty w).push .tail (T + dl) p2 d).1.push .head T p1
        ((Queue.empty w).push .tail (T + dl) p2 d).2.2).2.2.n_matches =
      d.n_matches + 1) := by
  rw [push_empty, push_empty]
  rw [push_tail_into_head w T dl p1 p2 _ h,
    push_head_into_tail w T dl p1 p2 _ h]
  simp [Diag.bumpPushed]

/-- C1 witness: window 5, head at 100, tail at 101. -/
theorem c1_coincidence_window_match_witness :
    (((Queue.empty 5).push .head 100 7 Diag.reset).2.1 = none) ∧
    ((((Queue.empty 5).push .head 100 7 Diag.reset).1.push .tail (100 + 1) 9
        ((Queue.empty 5).push .head 100 7 Diag.reset).2.2).2.1 =
      some ⟨100, 7, 100 + 1, 9⟩) ∧
    ((((Queue.empty 5).push .head 100 7 Diag.reset).1.push .tail (100 + 1) 9
        ((Queue.empty 5).push .head 100 7 Diag.reset).2.2).1.pending = []) ∧
    ((((Queue.empty 5).push .head 100 7 Diag.reset).1.push .tail (100 + 1) 9
        ((Queue.empty 5).push .head 100 7 Diag.reset).2.2).2.2.n_matches =
      Diag.reset.n_matches + 1) ∧
    (((Queue.empty 5).push .tail (100 + 1) 9 Diag.reset).2.1 = none) ∧
    ((((Queue.empty 5).push .tail (100 + 1) 9 Diag.reset).1.push .head 100 7
        ((Queue.empty 5).push .tail (100 + 1) 9 Diag.reset).2.2).2.1 =
      some ⟨100, 7, 100 + 1, 9⟩) ∧
    ((((Queue.empty 5).push .tail (100 + 1) 9 Diag.reset).1.push .head 100 7
        ((Queue.empty 5).push .tail (100 + 1) 9 Diag.reset).2.2).1.pending =
      []) ∧
    ((((Queue.empty 5).push .tail (100 + 1) 9 Diag.reset).1.push .head 100 7
        ((Queue.empty 5).push .tail (100 + 1) 9 Diag.reset).2.2).2.2.n_matches =
      Diag.reset.n_matches + 1) :=
  c1_coincidence_window_match 5 100 1 7 9 Diag.reset (by decide)

/-- Helper: as many `flush_iterative` calls as there are pending
events empty the queue. -/
theorem flushRepeat_drains (N : Nat) :
    ∀ (q : Queue) (d : Diag), q.pending.length = N →
      (Queue.flushRepeat N q d).1.pending = [] := by
  induction N with
  | zero =>
    intro q d h
    unfold Queue.flushRepeat
    exact List.length_eq_zero.mp h
  | succ n ih =>
    intro q d h
    cases hp : q.pending with
    | nil => rw [hp] at h; simp at h
    | cons e rest =>
      unfold Queue.flushRepeat
      simp only [Queue.flushIterative, hp]
      apply ih
      rw [hp] at h
      simp only [List.length_cons] at h
      simpa using Nat.succ_injective h

/-- C2: `flush_iterative` on a queue holding `N ≥ 1` pending events
returns depth `N - 1` and leaves `N - 1` pending events (a strict
decrease by one); on an empty queue it is a no-op returning depth 0;
and `N` consecutive calls drain the queue completely, so repeated
draining terminates. -/
theorem c2_flush_iterative (q : Queue) (d : Diag) (N : Nat)
    (h : q.pending.length = N) :
    (N = 0 → q.flushIterative d = (q, 0, d)) ∧
    (1 ≤ N → (q.flushIterative d).2.1 = N - 1 ∧
      (q.flushIterative d).1.pending.length = N - 1) ∧
    (Queue.flushRepeat N q d).1.pending = [] := by
  refine ⟨?_, ?_, flushRepeat_drains N q d h⟩
  · intro h0
    have hp : q.pending = [] := List.length_eq_zero.mp (h0 ▸ h)
    simp [Queue.flushIterative, hp]
  · intro h1
    cases hp : q.pending with
    | nil => rw [hp] at h; simp at h; omega
    | cons e rest =>
      rw [hp] at h
      simp only [List.length_cons] at h
      simp only [Queue.flushIterative, hp]
      constructor
      · simpa using by omega
      · simpa using by omega

/-- C2 witness: a queue holding one pending event and the empty queue
after it. -/
theorem c2_flush_iterative_witness :
    ((1 : Nat) = 0 →
      Queue.flushIterative ⟨5, [⟨Subsys.head, 3, 4, 0⟩], 1⟩ Diag.reset =
        (⟨5, [⟨Subsys.head, 3, 4, 0⟩], 1⟩, 0, Diag.reset)) ∧
    (1 ≤ 1 →
      (Queue.flushIterative ⟨5, [⟨Subsys.head, 3, 4, 0⟩], 1⟩
          Diag.reset).2.1 = 1 - 1 ∧
      (Queue.flushIterative ⟨5, [⟨Subsys.head, 3, 4, 0⟩], 1⟩
          Diag.reset).1.pending.length = 1 - 1) ∧
    (Queue.flushRepeat 1 ⟨5, [⟨Subsys.head, 3, 4, 0⟩], 1⟩
        Diag.reset).1.pending = [] :=
  c2_flush_iterative ⟨5, [⟨Subsys.head, 3, 4, 0⟩], 1⟩ Diag.reset 1 rfl

end tstamp

namespace dragon

/-- Helper: `UnpackMidasEvent` never allocates a queue: when the queue
pointer is null it stays null whatever the event id. -/
theorem unpackMidasEvent_preserves_null_queue (u : Unpacker) (eid : Int)
    (ts p : Nat) (h : u.fQueue = none) :
    (u.UnpackMidasEvent eid ts p).fQueue = none := by
  unfold Unpacker.UnpackMidasEvent
  split_ifs <;> simp [h]

/-- Helper: over any sequence of MIDAS events, a null queue pointer
stays null. -/
theorem unpack_stream_preserves_null_queue (evs : List (Int × Nat × Nat)) :
    ∀ u : Unpacker, u.fQueue = none →
      (evs.foldl (fun u e => u.UnpackMidasEvent e.1 e.2.1 e.2.2)
        u).fQueue = none := by
  induction evs with
  | nil => intro u h; exact h
  | cons e evs ih =>
    intro u h
    exact ih _ (unpackMidasEvent_preserves_null_queue u e.1 e.2.1 e.2.2 h)

/-- C9: an Unpacker constructed in singles mode has a null queue
pointer, no event routing ever constructs one (the pointer stays null
over any event stream), and both `FlushQueue` and
`FlushQueueIterative` dereference the null pointer (modelled as the
undefined result `none`); constructed in coincidence mode the same
calls are well defined. -/
theorem c9_singles_mode_flush_null_deref (t : Nat) (eid : Int)
    (ts payload : Nat) (evs : List (Int × Nat × Nat)) :
    (Unpacker.create true).fQueue = none ∧
    (Unpacker.create true).FlushQueue t = none ∧
    (Unpacker.create true).FlushQueueIterative = none ∧
    ((Unpacker.create true).UnpackMidasEvent eid ts payload).fQueue =
      none ∧
    (evs.foldl (fun u e => u.UnpackMidasEvent e.1 e.2.1 e.2.2)
      (Unpacker.create true)).fQueue = none ∧
    (Unpacker.create false).FlushQueueIterative =
      some (Unpacker.create false, 0) := by
  refine ⟨rfl, rfl, rfl, ?_, ?_, rfl⟩
  · exact unpackMidasEvent_preserves_null_queue _ eid ts payload rfl
  · exact unpack_stream_preserves_null_queue evs _ rfl

end dragon
